import Mathlib

/-!
Formal model of the `apple` package (App Store Server API client):
the compact-envelope (JWS) codec, Apple JWK key directory, the
verification pipeline of golang-jwt v5 as instantiated here, and the
authorization-token issuer.
-/

/-- Bytes are modelled as lists of naturals below 256 (each entry is one octet). -/
abbrev Bytes := List Nat

/-- UTF-8 encoding of one character (standard 1-4 byte ranges). -/
def utf8Bytes (c : Char) : Bytes :=
  let n := c.toNat
  if n < 0x80 then [n]
  else if n < 0x800 then [0xC0 + n / 64, 0x80 + n % 64]
  else if n < 0x10000 then [0xE0 + n / 4096, 0x80 + (n / 64) % 64, 0x80 + n % 64]
  else [0xF0 + n / 262144, 0x80 + (n / 4096) % 64, 0x80 + (n / 64) % 64, 0x80 + n % 64]

/-- UTF-8 bytes of a string (Go strings are UTF-8 byte sequences). -/
def strBytes (s : String) : Bytes := s.data.foldr (fun c acc => utf8Bytes c ++ acc) []

/-- Value of one character of the base64url alphabet (`encoding/base64.RawURLEncoding`). -/
def b64Val (c : Char) : Option Nat :=
  if 'A' ≤ c ∧ c ≤ 'Z' then some (c.toNat - 'A'.toNat)
  else if 'a' ≤ c ∧ c ≤ 'z' then some (c.toNat - 'a'.toNat + 26)
  else if '0' ≤ c ∧ c ≤ '9' then some (c.toNat - '0'.toNat + 52)
  else if c = '-' then some 62
  else if c = '_' then some 63
  else none

/-- Character of the base64url alphabet for a 6-bit value. -/
def b64Chr (n : Nat) : Char :=
  if n < 26 then Char.ofNat ('A'.toNat + n)
  else if n < 52 then Char.ofNat ('a'.toNat + n - 26)
  else if n < 62 then Char.ofNat ('0'.toNat + n - 52)
  else if n = 62 then '-' else '_'

/-- `base64.RawURLEncoding.DecodeString`: unpadded base64url decoding.
A remainder of one character is corrupt input; Go's default (non-Strict)
decoder discards any non-zero trailing bits of a 2- or 3-character tail. -/
def b64decodeChars : List Char → Option Bytes
  | [] => some []
  | [_] => none
  | [a, b] => do
      let va ← b64Val a; let vb ← b64Val b
      pure [va * 4 + vb / 16]
  | [a, b, c] => do
      let va ← b64Val a; let vb ← b64Val b; let vc ← b64Val c
      pure [va * 4 + vb / 16, (vb % 16) * 16 + vc / 4]
  | a :: b :: c :: d :: rest => do
      let va ← b64Val a; let vb ← b64Val b; let vc ← b64Val c; let vd ← b64Val d
      let tl ← b64decodeChars rest
      pure ([va * 4 + vb / 16, (vb % 16) * 16 + vc / 4, (vc % 4) * 64 + vd] ++ tl)

def b64decode (s : String) : Option Bytes := b64decodeChars s.data

/-- `base64.RawURLEncoding.EncodeToString`: unpadded base64url encoding. -/
def b64encodeBytes : Bytes → List Char
  | [] => []
  | [x] => [b64Chr (x / 4), b64Chr (x % 4 * 16)]
  | [x, y] => [b64Chr (x / 4), b64Chr (x % 4 * 16 + y / 16), b64Chr (y % 16 * 4)]
  | x :: y :: z :: rest =>
      b64Chr (x / 4) :: b64Chr (x % 4 * 16 + y / 16) ::
      b64Chr (y % 16 * 4 + z / 64) :: b64Chr (z % 64) :: b64encodeBytes rest

def b64encode (bs : Bytes) : String := String.mk (b64encodeBytes bs)

/-- `strings.Split(s, ".")`: split at every dot; `Split("", ".") = [""]`. -/
def splitDotChars : List Char → List (List Char)
  | [] => [[]]
  | c :: rest =>
    match splitDotChars rest with
    | [] => [[]]
    | a :: as => if c = '.' then [] :: a :: as else (c :: a) :: as

def splitOnDot (s : String) : List String := (splitDotChars s.data).map String.mk

example : splitOnDot "a.b.c" = ["a", "b", "c"] := by decide
example : splitOnDot "" = [""] := by decide
example : splitOnDot ".." = ["", "", ""] := by decide
example : b64decode "e30" = some [0x7b, 0x7d] := by decide
example : b64encode [0x7b, 0x7d] = "e30" := by decide
example : b64decode "AQAB" = some [1, 0, 1] := by decide

/-! ## JSON

A model of `encoding/json` on the fragment these payloads exercise:
JSON numbers are restricted to integers (a fraction or exponent makes
this parser fail where Go would produce a `float64`), string contents to
ASCII with the single-character escapes (no `\u` escapes). All payloads,
headers and fixtures in scope stay inside this fragment. -/

inductive Json where
  | null
  | bool (b : Bool)
  | num (n : Int)
  | str (s : String)
  | arr (xs : List Json)
  | obj (fields : List (String × Json))
  deriving Repr

def isWsByte (b : Nat) : Bool := b = 0x20 || b = 0x09 || b = 0x0A || b = 0x0D

def skipWs : Bytes → Bytes
  | [] => []
  | b :: rest => if isWsByte b then skipWs rest else b :: rest

def isDigitByte (b : Nat) : Bool := 0x30 ≤ b && b ≤ 0x39

def takeDigits : Bytes → List Nat × Bytes
  | [] => ([], [])
  | b :: rest =>
      if isDigitByte b then
        let (ds, r) := takeDigits rest
        (b :: ds, r)
      else ([], b :: rest)

def digitsToNat (ds : List Nat) : Nat := ds.foldl (fun a d => a * 10 + (d - 0x30)) 0

/-- Go JSON number grammar, integer part only: optional minus, then either a
single `0` or a nonzero digit followed by digits; a following `.`, `e` or `E`
(a float) is outside this model. -/
def parseNumber (bs : Bytes) : Option (Json × Bytes) :=
  let (neg, rest) := match bs with
    | 0x2D :: r => (true, r)
    | r => (false, r)
  match takeDigits rest with
  | ([], _) => none
  | (ds, r) =>
    if ds.headD 0 = 0x30 && 1 < ds.length then none
    else match r with
      | 0x2E :: _ => none
      | 0x65 :: _ => none
      | 0x45 :: _ => none
      | _ =>
        let v : Int := digitsToNat ds
        some (.num (if neg then -v else v), r)

/-- Body of a JSON string after the opening quote, up to the closing quote. -/
def parseStringBody : Bytes → Option (String × Bytes)
  | [] => none
  | 0x22 :: rest => some ("", rest)
  | 0x5C :: e :: rest =>
      match (match e with
        | 0x22 => some '"'
        | 0x5C => some '\\'
        | 0x2F => some '/'
        | 0x62 => some (Char.ofNat 8)
        | 0x66 => some (Char.ofNat 12)
        | 0x6E => some '\n'
        | 0x72 => some '\r'
        | 0x74 => some '\t'
        | _ => none) with
      | none => none
      | some c =>
        match parseStringBody rest with
        | none => none
        | some (s, r) => some (String.mk (c :: s.data), r)
  | b :: rest =>
      if 0x20 ≤ b && b ≤ 0x7F && b ≠ 0x22 && b ≠ 0x5C then
        match parseStringBody rest with
        | none => none
        | some (s, r) => some (String.mk (Char.ofNat b :: s.data), r)
      else none

mutual

def parseValue : Nat → Bytes → Option (Json × Bytes)
  | 0, _ => none
  | _ + 1, [] => none
  | fuel + 1, bs =>
      match bs with
      | 0x6E :: 0x75 :: 0x6C :: 0x6C :: r => some (.null, r)
      | 0x74 :: 0x72 :: 0x75 :: 0x65 :: r => some (.bool true, r)
      | 0x66 :: 0x61 :: 0x6C :: 0x73 :: 0x65 :: r => some (.bool false, r)
      | 0x22 :: r => (parseStringBody r).map (fun p => (.str p.1, p.2))
      | 0x5B :: r =>
          (match skipWs r with
           | 0x5D :: r2 => some (.arr [], r2)
           | r2 => parseElems fuel r2)
      | 0x7B :: r =>
          (match skipWs r with
           | 0x7D :: r2 => some (.obj [], r2)
           | r2 => parseMembers fuel r2)
      | other => parseNumber other

def parseElems : Nat → Bytes → Option (Json × Bytes)
  | 0, _ => none
  | fuel + 1, bs =>
      match parseValue fuel (skipWs bs) with
      | none => none
      | some (v, r) =>
        match skipWs r with
        | 0x2C :: r2 =>
            (match parseElems fuel r2 with
             | some (.arr vs, r3) => some (.arr (v :: vs), r3)
             | _ => none)
        | 0x5D :: r2 => some (.arr [v], r2)
        | _ => none

def parseMembers : Nat → Bytes → Option (Json × Bytes)
  | 0, _ => none
  | fuel + 1, bs =>
      match skipWs bs with
      | 0x22 :: r =>
          (match parseStringBody r with
           | none => none
           | some (k, r2) =>
             match skipWs r2 with
             | 0x3A :: r3 =>
                 (match parseValue fuel (skipWs r3) with
                  | none => none
                  | some (v, r4) =>
                    match skipWs r4 with
                    | 0x2C :: r5 =>
                        (match parseMembers fuel r5 with
                         | some (.obj fs, r6) => some (.obj ((k, v) :: fs), r6)
                         | _ => none)
                    | 0x7D :: r5 => some (.obj [(k, v)], r5)
                    | _ => none)
             | _ => none)
      | _ => none

end

/-- Scan one JSON value from the front of the input. -/
def jsonScan (bs : Bytes) : Option (Json × Bytes) :=
  parseValue (2 * bs.length + 2) (skipWs bs)

/-- `json.Unmarshal`: one value, then nothing but whitespace. -/
def jsonUnmarshalBytes (bs : Bytes) : Option Json :=
  match jsonScan bs with
  | some (j, rest) => if skipWs rest = [] then some j else none
  | none => none

/-- `json.Decoder.Decode`: one value off the stream; trailing data is allowed
(this is what golang-jwt uses for claim segments). -/
def jsonDecodeOne (bs : Bytes) : Option Json :=
  (jsonScan bs).map Prod.fst

/-- Lookup in a decoded `map[string]interface\x7b\x7d`: a later duplicate key
overwrites an earlier one, so the last occurrence wins. -/
def jLookup (fs : List (String × Json)) (k : String) : Option Json :=
  (fs.reverse.find? (fun p => p.1 == k)).map Prod.snd

/-- ASCII case folding used by `encoding/json` when matching object keys to
struct field tags. -/
def charFold (c : Char) : Char :=
  if 'A' ≤ c ∧ c ≤ 'Z' then Char.ofNat (c.toNat + 32) else c

def eqFold (a b : String) : Bool := a.data.map charFold == b.data.map charFold

instance {ε α : Type} [DecidableEq ε] [DecidableEq α] : DecidableEq (Except ε α) :=
  fun a b =>
    match a, b with
    | .ok x, .ok y => if h : x = y then .isTrue (by rw [h]) else .isFalse (by simp [h])
    | .error x, .error y => if h : x = y then .isTrue (by rw [h]) else .isFalse (by simp [h])
    | .ok _, .error _ => .isFalse (by simp)
    | .error _, .ok _ => .isFalse (by simp)

/-! ### JSON serialization (`json.Marshal` with its default HTML escaping) -/

def hexDig (n : Nat) : Char :=
  if n < 10 then Char.ofNat ('0'.toNat + n) else Char.ofNat ('a'.toNat + n - 10)

def escChar (c : Char) : List Char :=
  if c = '"' then ['\\', '"']
  else if c = '\\' then ['\\', '\\']
  else if c = '\n' then ['\\', 'n']
  else if c = '\r' then ['\\', 'r']
  else if c = '\t' then ['\\', 't']
  else if c.toNat < 0x20 then ['\\', 'u', '0', '0', hexDig (c.toNat / 16), hexDig (c.toNat % 16)]
  else if c = '<' then ['\\', 'u', '0', '0', '3', 'c']
  else if c = '>' then ['\\', 'u', '0', '0', '3', 'e']
  else if c = '&' then ['\\', 'u', '0', '0', '2', '6']
  else if c.toNat = 0x2028 then ['\\', 'u', '2', '0', '2', '8']
  else if c.toNat = 0x2029 then ['\\', 'u', '2', '0', '2', '9']
  else [c]

def jsonQuote (s : String) : String :=
  "\"" ++ String.mk (s.data.foldr (fun c acc => escChar c ++ acc) []) ++ "\""

mutual

def jsonSerialize : Json → String
  | .null => "null"
  | .bool true => "true"
  | .bool false => "false"
  | .num n => toString n
  | .str s => jsonQuote s
  | .arr xs => "[" ++ serializeElems xs ++ "]"
  | .obj fs => "\x7b" ++ serializeFields fs ++ "\x7d"

def serializeElems : List Json → String
  | [] => ""
  | [x] => jsonSerialize x
  | x :: y :: xs => jsonSerialize x ++ "," ++ serializeElems (y :: xs)

def serializeFields : List (String × Json) → String
  | [] => ""
  | [(k, v)] => jsonQuote k ++ ":" ++ jsonSerialize v
  | (k, v) :: f :: fs => jsonQuote k ++ ":" ++ jsonSerialize v ++ "," ++ serializeFields (f :: fs)

end

example : jsonUnmarshalBytes (strBytes "\x7b\"a\":1,\"b\":\"x\"\x7d") =
    some (.obj [("a", .num 1), ("b", .str "x")]) := rfl
example : jsonUnmarshalBytes (strBytes "") = none := rfl
example : jsonSerialize (.obj [("a", .num (-3)), ("b", .str "x")]) =
    "\x7b\"a\":-3,\"b\":\"x\"\x7d" := rfl

/-! ## Go `encoding/json` field assignment

`Unmarshal` fills a zero value field by field, in the order the keys appear
in the JSON object; keys match struct tags ASCII case-insensitively; a
wrong-typed value records an error but decoding continues; JSON `null` sets
pointers and slices to nil and is a no-op for strings, integers, booleans
and structs. The `Bool` in each result records whether an error was saved. -/

def goSetStr (cur : String) (v : Json) : String × Bool :=
  match v with
  | .str s => (s, false)
  | .null => (cur, false)
  | _ => (cur, true)

def goSetOptStr (cur : Option String) (v : Json) : Option String × Bool :=
  match v with
  | .str s => (some s, false)
  | .null => (none, false)
  | _ => (cur, true)

def goSetInt (cur : Int) (v : Json) : Int × Bool :=
  match v with
  | .num n => (n, false)
  | .null => (cur, false)
  | _ => (cur, true)

/-- `int32` target: an out-of-range number is an unmarshal error. -/
def goSetI32 (cur : Int) (v : Json) : Int × Bool :=
  match v with
  | .num n => if -2147483648 ≤ n ∧ n < 2147483648 then (n, false) else (cur, true)
  | .null => (cur, false)
  | _ => (cur, true)

def goSetOptInt (cur : Option Int) (v : Json) : Option Int × Bool :=
  match v with
  | .num n => (some n, false)
  | .null => (none, false)
  | _ => (cur, true)

def goSetOptI32 (cur : Option Int) (v : Json) : Option Int × Bool :=
  match v with
  | .num n => if -2147483648 ≤ n ∧ n < 2147483648 then (some n, false) else (cur, true)
  | .null => (none, false)
  | _ => (cur, true)

def goSetBool (cur : Bool) (v : Json) : Bool × Bool :=
  match v with
  | .bool b => (b, false)
  | .null => (cur, false)
  | _ => (cur, true)

def goSetOptBool (cur : Option Bool) (v : Json) : Option Bool × Bool :=
  match v with
  | .bool b => (some b, false)
  | .null => (none, false)
  | _ => (cur, true)

/-- `[]string`-like target: array elements decode individually, a bad element
leaves its zero value and records the error; `null` sets the slice to nil. -/
def goSetStrList (cur : List String) (v : Json) : List String × Bool :=
  match v with
  | .arr xs =>
      (xs.map (fun x => match x with | .str s => s | _ => ""),
       xs.any (fun x => match x with | .str _ => false | .null => false | _ => true))
  | .null => ([], false)
  | _ => (cur, true)

/-! ## Key directory (`public_key.go`) -/

structure AppleJWKKey where
  Kty : String
  Kid : String
  Use : String
  Alg : String
  N : String
  E : String
  deriving DecidableEq, Repr

structure AppleJWK where
  Keys : List AppleJWKKey
  deriving DecidableEq, Repr

def zeroJWKKey : AppleJWKKey := ⟨"", "", "", "", "", ""⟩

def applyJWKKeyField (s : AppleJWKKey) (err : Bool) (k : String) (v : Json) :
    AppleJWKKey × Bool :=
  if eqFold k "kty" then let (x, e) := goSetStr s.Kty v; ({ s with Kty := x }, err || e)
  else if eqFold k "kid" then let (x, e) := goSetStr s.Kid v; ({ s with Kid := x }, err || e)
  else if eqFold k "use" then let (x, e) := goSetStr s.Use v; ({ s with Use := x }, err || e)
  else if eqFold k "alg" then let (x, e) := goSetStr s.Alg v; ({ s with Alg := x }, err || e)
  else if eqFold k "n" then let (x, e) := goSetStr s.N v; ({ s with N := x }, err || e)
  else if eqFold k "e" then let (x, e) := goSetStr s.E v; ({ s with E := x }, err || e)
  else (s, err)

def unmarshalJWKKey (j : Json) : AppleJWKKey × Bool :=
  match j with
  | .null => (zeroJWKKey, false)
  | .obj fs => fs.foldl (fun p kv => applyJWKKeyField p.1 p.2 kv.1 kv.2) (zeroJWKKey, false)
  | _ => (zeroJWKKey, true)

def goSetJWKKeys (cur : List AppleJWKKey) (v : Json) : List AppleJWKKey × Bool :=
  match v with
  | .arr xs => (xs.map (fun x => (unmarshalJWKKey x).1), xs.any (fun x => (unmarshalJWKKey x).2))
  | .null => ([], false)
  | _ => (cur, true)

/-- What `json.Decoder.Decode(&AppleJWKs)` writes through the `**AppleJWK`
target, and whether it reports an error. The pointer is allocated eagerly, so
a type error inside the document still leaves a (partially filled) value. -/
def unmarshalJWKPtr (j : Json) : Option AppleJWK × Bool :=
  match j with
  | .null => (none, false)
  | .obj fs =>
      let (v, e) := fs.foldl (fun (p : AppleJWK × Bool) kv =>
        if eqFold kv.1 "keys" then
          let (x, e) := goSetJWKKeys p.1.Keys kv.2
          ({ Keys := x }, p.2 || e)
        else p) (⟨[]⟩, false)
      (some v, e)
  | _ => (some ⟨[]⟩, true)

inductive FetchErr
  | network
  | decodeFail
  deriving DecidableEq, Repr

structure HttpResp where
  status : Nat
  body : Option Json

/-- `FetchAppleJWKs`, with the process-wide cache (`var AppleJWKs *AppleJWK`)
passed in and returned explicitly and the network modelled as the outcome of
`http.Get`. Faithful to the source: the HTTP status is never inspected, and
the body is decoded straight into the global. -/
def fetchAppleJWKs (cache : Option AppleJWK) (resp : Except Unit HttpResp) :
    Option AppleJWK × Except FetchErr (Option AppleJWK) :=
  match cache with
  | some k => (some k, .ok (some k))
  | none =>
    match resp with
    | .error _ => (none, .error .network)
    | .ok r =>
      match r.body with
      | none => (none, .error .decodeFail)
      | some j =>
        let (written, bad) := unmarshalJWKPtr j
        if bad then (written, .error .decodeFail) else (written, .ok written)

inductive KeyErr
  | nDecode
  | eDecode
  | expLen
  | noMatch
  deriving DecidableEq, Repr

structure RSAPublicKey where
  N : Nat
  E : Nat
  deriving DecidableEq, Repr

/-- `big.Int.SetBytes`: big-endian unsigned interpretation. -/
def bytesBE (bs : Bytes) : Nat := bs.foldl (fun a b => a * 256 + b) 0

/-- `GetAppleRSAPublicKey`: first key with matching kid; decode modulus and
exponent; a 3-byte exponent is read big-endian, a 1-byte exponent is its
value, any other length is an error. -/
def getAppleRSAPublicKey : List AppleJWKKey → String → Except KeyErr RSAPublicKey
  | [], _ => .error .noMatch
  | key :: rest, kid =>
    if key.Kid = kid then
      match b64decode key.N with
      | none => .error .nDecode
      | some nBytes =>
        match b64decode key.E with
        | none => .error .eDecode
        | some eBytes =>
          match eBytes with
          | [b0, b1, b2] => .ok ⟨bytesBE nBytes, b0 * 65536 + b1 * 256 + b2⟩
          | [b0] => .ok ⟨bytesBE nBytes, b0⟩
          | _ => .error .expLen
    else getAppleRSAPublicKey rest kid

/-! ## Typed claim payloads (`subscription.go`, `client.go`)

`Timestamp` is an `int64` of Unix milliseconds; Go pointer fields become
`Option`. Field names and json tags follow the source. -/

abbrev Timestamp := Int

structure SubscriptionInfo where
  Environment : String := ""
  AppAppleID : Int := 0
  BundleID : String := ""
  ProductID : String := ""
  Storefront : String := ""
  StorefrontID : String := ""
  OriginalTransactionID : String := ""
  SubscriptionGroupID : String := ""
  PurchaseDate : String := ""
  OriginalPurchaseDate : String := ""
  ExpirationDate : String := ""
  IsInBillingRetryPeriod : Option Bool := none
  GracePeriodExpiresDate : Option String := none
  AutoRenewStatus : Int := 0
  AutoRenewProductID : Option String := none
  IsUpgraded : Option Bool := none
  OfferType : Option Int := none
  OfferIdentifier : Option String := none
  SignedTransactionInfo : String := ""
  SignedRenewalInfo : String := ""
  deriving DecidableEq, Repr

def zeroSubscriptionInfo : SubscriptionInfo := {}

def applySubscriptionField (s : SubscriptionInfo) (err : Bool) (k : String) (v : Json) :
    SubscriptionInfo × Bool :=
  if eqFold k "environment" then
    let (x, e) := goSetStr s.Environment v; ({ s with Environment := x }, err || e)
  else if eqFold k "appAppleId" then
    let (x, e) := goSetInt s.AppAppleID v; ({ s with AppAppleID := x }, err || e)
  else if eqFold k "bundleId" then
    let (x, e) := goSetStr s.BundleID v; ({ s with BundleID := x }, err || e)
  else if eqFold k "productId" then
    let (x, e) := goSetStr s.ProductID v; ({ s with ProductID := x }, err || e)
  else if eqFold k "storefront" then
    let (x, e) := goSetStr s.Storefront v; ({ s with Storefront := x }, err || e)
  else if eqFold k "storefrontId" then
    let (x, e) := goSetStr s.StorefrontID v; ({ s with StorefrontID := x }, err || e)
  else if eqFold k "originalTransactionId" then
    let (x, e) := goSetStr s.OriginalTransactionID v; ({ s with OriginalTransactionID := x }, err || e)
  else if eqFold k "subscriptionGroupIdentifier" then
    let (x, e) := goSetStr s.SubscriptionGroupID v; ({ s with SubscriptionGroupID := x }, err || e)
  else if eqFold k "purchaseDate" then
    let (x, e) := goSetStr s.PurchaseDate v; ({ s with PurchaseDate := x }, err || e)
  else if eqFold k "originalPurchaseDate" then
    let (x, e) := goSetStr s.OriginalPurchaseDate v; ({ s with OriginalPurchaseDate := x }, err || e)
  else if eqFold k "expirationDate" then
    let (x, e) := goSetStr s.ExpirationDate v; ({ s with ExpirationDate := x }, err || e)
  else if eqFold k "isInBillingRetryPeriod" then
    let (x, e) := goSetOptBool s.IsInBillingRetryPeriod v; ({ s with IsInBillingRetryPeriod := x }, err || e)
  else if eqFold k "gracePeriodExpiresDate" then
    let (x, e) := goSetOptStr s.GracePeriodExpiresDate v; ({ s with GracePeriodExpiresDate := x }, err || e)
  else if eqFold k "autoRenewStatus" then
    let (x, e) := goSetInt s.AutoRenewStatus v; ({ s with AutoRenewStatus := x }, err || e)
  else if eqFold k "autoRenewProductId" then
    let (x, e) := goSetOptStr s.AutoRenewProductID v; ({ s with AutoRenewProductID := x }, err || e)
  else if eqFold k "isUpgraded" then
    let (x, e) := goSetOptBool s.IsUpgraded v; ({ s with IsUpgraded := x }, err || e)
  else if eqFold k "offerType" then
    let (x, e) := goSetOptInt s.OfferType v; ({ s with OfferType := x }, err || e)
  else if eqFold k "offerIdentifier" then
    let (x, e) := goSetOptStr s.OfferIdentifier v; ({ s with OfferIdentifier := x }, err || e)
  else if eqFold k "signedTransactionInfo" then
    let (x, e) := goSetStr s.SignedTransactionInfo v; ({ s with SignedTransactionInfo := x }, err || e)
  else if eqFold k "signedRenewalInfo" then
    let (x, e) := goSetStr s.SignedRenewalInfo v; ({ s with SignedRenewalInfo := x }, err || e)
  else (s, err)

/-- `json.Unmarshal` into a `SubscriptionInfo` value. -/
def unmarshalSubscriptionInfo (j : Json) : Option SubscriptionInfo :=
  match j with
  | .null => some zeroSubscriptionInfo
  | .obj fs =>
      let (v, e) := fs.foldl (fun p kv => applySubscriptionField p.1 p.2 kv.1 kv.2)
        (zeroSubscriptionInfo, false)
      if e then none else some v
  | _ => none

structure JWSRenewalInfoDecodedPayload where
  OriginalTransactionId : String := ""
  TransactionId : String := ""
  WebOrderLineItemId : String := ""
  BundleId : String := ""
  AppAccountToken : Option String := none
  ProductId : String := ""
  «Type» : String := ""
  SubscriptionGroupIdentifier : String := ""
  Quantity : Option Int := none
  Price : Option Int := none
  Currency : String := ""
  Storefront : String := ""
  StorefrontId : String := ""
  EligibleWinBackOfferIds : List String := []
  OfferType : Int := 0
  OfferDiscountType : String := ""
  OriginalPurchaseDate : Timestamp := 0
  PurchaseDate : Timestamp := 0
  RecentSubscriptionStartDate : Timestamp := 0
  IsInBillingRetryPeriod : Bool := false
  GracePeriodExpiresDate : Timestamp := 0
  AutoRenewStatus : Int := 0
  AutoRenewProductId : String := ""
  ExpirationIntent : Int := 0
  ExpiresDate : Timestamp := 0
  IsUpgraded : Bool := false
  RenewalDate : Timestamp := 0
  RenewalPrice : Int := 0
  InAppOwnershipType : String := ""
  PriceIncreaseStatus : Int := 0
  RevocationDate : Timestamp := 0
  RevocationReason : String := ""
  TransactionReason : String := ""
  SignedDate : Timestamp := 0
  Environment : String := ""
  OfferIdentifier : String := ""
  deriving DecidableEq, Repr

def zeroRenewalInfo : JWSRenewalInfoDecodedPayload := {}

def applyRenewalField (s : JWSRenewalInfoDecodedPayload) (err : Bool) (k : String) (v : Json) :
    JWSRenewalInfoDecodedPayload × Bool :=
  if eqFold k "originalTransactionId" then
    let (x, e) := goSetStr s.OriginalTransactionId v; ({ s with OriginalTransactionId := x }, err || e)
  else if eqFold k "transactionId" then
    let (x, e) := goSetStr s.TransactionId v; ({ s with TransactionId := x }, err || e)
  else if eqFold k "webOrderLineItemId" then
    let (x, e) := goSetStr s.WebOrderLineItemId v; ({ s with WebOrderLineItemId := x }, err || e)
  else if eqFold k "bundleId" then
    let (x, e) := goSetStr s.BundleId v; ({ s with BundleId := x }, err || e)
  else if eqFold k "appAccountToken" then
    let (x, e) := goSetOptStr s.AppAccountToken v; ({ s with AppAccountToken := x }, err || e)
  else if eqFold k "productId" then
    let (x, e) := goSetStr s.ProductId v; ({ s with ProductId := x }, err || e)
  else if eqFold k "type" then
    let (x, e) := goSetStr s.«Type» v; ({ s with «Type» := x }, err || e)
  else if eqFold k "subscriptionGroupIdentifier" then
    let (x, e) := goSetStr s.SubscriptionGroupIdentifier v; ({ s with SubscriptionGroupIdentifier := x }, err || e)
  else if eqFold k "quantity" then
    let (x, e) := goSetOptI32 s.Quantity v; ({ s with Quantity := x }, err || e)
  else if eqFold k "price" then
    let (x, e) := goSetOptInt s.Price v; ({ s with Price := x }, err || e)
  else if eqFold k "currency" then
    let (x, e) := goSetStr s.Currency v; ({ s with Currency := x }, err || e)
  else if eqFold k "storefront" then
    let (x, e) := goSetStr s.Storefront v; ({ s with Storefront := x }, err || e)
  else if eqFold k "storefrontId" then
    let (x, e) := goSetStr s.StorefrontId v; ({ s with StorefrontId := x }, err || e)
  else if eqFold k "eligibleWinBackOfferIds" then
    let (x, e) := goSetStrList s.EligibleWinBackOfferIds v; ({ s with EligibleWinBackOfferIds := x }, err || e)
  else if eqFold k "offerType" then
    let (x, e) := goSetI32 s.OfferType v; ({ s with OfferType := x }, err || e)
  else if eqFold k "offerDiscountType" then
    let (x, e) := goSetStr s.OfferDiscountType v; ({ s with OfferDiscountType := x }, err || e)
  else if eqFold k "originalPurchaseDate" then
    let (x, e) := goSetInt s.OriginalPurchaseDate v; ({ s with OriginalPurchaseDate := x }, err || e)
  else if eqFold k "purchaseDate" then
    let (x, e) := goSetInt s.PurchaseDate v; ({ s with PurchaseDate := x }, err || e)
  else if eqFold k "recentSubscriptionStartDate" then
    let (x, e) := goSetInt s.RecentSubscriptionStartDate v; ({ s with RecentSubscriptionStartDate := x }, err || e)
  else if eqFold k "isInBillingRetryPeriod" then
    let (x, e) := goSetBool s.IsInBillingRetryPeriod v; ({ s with IsInBillingRetryPeriod := x }, err || e)
  else if eqFold k "gracePeriodExpiresDate" then
    let (x, e) := goSetInt s.GracePeriodExpiresDate v; ({ s with GracePeriodExpiresDate := x }, err || e)
  else if eqFold k "autoRenewStatus" then
    let (x, e) := goSetI32 s.AutoRenewStatus v; ({ s with AutoRenewStatus := x }, err || e)
  else if eqFold k "autoRenewProductId" then
    let (x, e) := goSetStr s.AutoRenewProductId v; ({ s with AutoRenewProductId := x }, err || e)
  else if eqFold k "expirationIntent" then
    let (x, e) := goSetI32 s.ExpirationIntent v; ({ s with ExpirationIntent := x }, err || e)
  else if eqFold k "expiresDate" then
    let (x, e) := goSetInt s.ExpiresDate v; ({ s with ExpiresDate := x }, err || e)
  else if eqFold k "isUpgraded" then
    let (x, e) := goSetBool s.IsUpgraded v; ({ s with IsUpgraded := x }, err || e)
  else if eqFold k "renewalDate" then
    let (x, e) := goSetInt s.RenewalDate v; ({ s with RenewalDate := x }, err || e)
  else if eqFold k "renewalPrice" then
    let (x, e) := goSetInt s.RenewalPrice v; ({ s with RenewalPrice := x }, err || e)
  else if eqFold k "inAppOwnershipType" then
    let (x, e) := goSetStr s.InAppOwnershipType v; ({ s with InAppOwnershipType := x }, err || e)
  else if eqFold k "priceIncreaseStatus" then
    let (x, e) := goSetI32 s.PriceIncreaseStatus v; ({ s with PriceIncreaseStatus := x }, err || e)
  else if eqFold k "revocationDate" then
    let (x, e) := goSetInt s.RevocationDate v; ({ s with RevocationDate := x }, err || e)
  else if eqFold k "revocationReason" then
    let (x, e) := goSetStr s.RevocationReason v; ({ s with RevocationReason := x }, err || e)
  else if eqFold k "transactionReason" then
    let (x, e) := goSetStr s.TransactionReason v; ({ s with TransactionReason := x }, err || e)
  else if eqFold k "signedDate" then
    let (x, e) := goSetInt s.SignedDate v; ({ s with SignedDate := x }, err || e)
  else if eqFold k "environment" then
    let (x, e) := goSetStr s.Environment v; ({ s with Environment := x }, err || e)
  else if eqFold k "offerIdentifier" then
    let (x, e) := goSetStr s.OfferIdentifier v; ({ s with OfferIdentifier := x }, err || e)
  else (s, err)

/-- `json.Unmarshal` into a `JWSRenewalInfoDecodedPayload` value. -/
def unmarshalRenewalInfo (j : Json) : Option JWSRenewalInfoDecodedPayload :=
  match j with
  | .null => some zeroRenewalInfo
  | .obj fs =>
      let (v, e) := fs.foldl (fun p kv => applyRenewalField p.1 p.2 kv.1 kv.2)
        (zeroRenewalInfo, false)
      if e then none else some v
  | _ => none

/-! ## The golang-jwt v5 pipeline

`jwt.Parser` with default options: no restriction on methods, claims
validation enabled, raw (unpadded) base64url segments. The only key type the
keyfuncs of this repository ever return is `*rsa.PublicKey`, so the key
handed to `Method.Verify` is an `RSAPublicKey`; the RSA signature
primitives (`crypto/rsa` + the hash) are an oracle parameter. -/

inductive SigAlg
  | HS256 | HS384 | HS512
  | RS256 | RS384 | RS512
  | ES256 | ES384 | ES512
  | PS256 | PS384 | PS512
  | EdDSA
  | NoneAlg
  deriving DecidableEq, Repr

/-- `jwt.GetSigningMethod` on the methods registered by golang-jwt v5. -/
def getSigningMethod (s : String) : Option SigAlg :=
  if s = "HS256" then some .HS256 else if s = "HS384" then some .HS384
  else if s = "HS512" then some .HS512
  else if s = "RS256" then some .RS256 else if s = "RS384" then some .RS384
  else if s = "RS512" then some .RS512
  else if s = "ES256" then some .ES256 else if s = "ES384" then some .ES384
  else if s = "ES512" then some .ES512
  else if s = "PS256" then some .PS256 else if s = "PS384" then some .PS384
  else if s = "PS512" then some .PS512
  else if s = "EdDSA" then some .EdDSA
  else if s = "none" then some .NoneAlg
  else none

/-- Whether the concrete method type is `*jwt.SigningMethodRSA` (the type
assertion the `VerifyJWT` keyfunc makes; the PSS methods are a different
concrete type). -/
def SigAlg.isRSAMethod : SigAlg → Bool
  | .RS256 | .RS384 | .RS512 => true
  | _ => false

inductive VerifyErr
  | invalidKeyType
  | badSignature
  | noneDisallowed
  deriving DecidableEq, Repr

/-- The RSA verification oracle: method, modulus, exponent, signing string,
signature bytes. Stands for `rsa.VerifyPKCS1v15` / `rsa.VerifyPSS` with the
method's hash. -/
abbrev RSAOracle := SigAlg → Nat → Nat → String → Bytes → Bool

/-- `Method.Verify(signingString, sig, key)` for a key of Go type
`*rsa.PublicKey`: the RSA families run the crypto; ECDSA, HMAC and EdDSA
reject the key type before any cryptography; `none` requires its magic
constant key. -/
def methodVerify (oracle : RSAOracle) (m : SigAlg) (k : RSAPublicKey)
    (signingString : String) (sig : Bytes) : Option VerifyErr :=
  match m with
  | .RS256 | .RS384 | .RS512 | .PS256 | .PS384 | .PS512 =>
      if oracle m k.N k.E signingString sig then none else some .badSignature
  | .ES256 | .ES384 | .ES512 => some .invalidKeyType
  | .HS256 | .HS384 | .HS512 => some .invalidKeyType
  | .EdDSA => some .invalidKeyType
  | .NoneAlg => some .noneDisallowed

inductive ValErr
  | expAccessor
  | expired
  | nbfAccessor
  | notYetValid
  deriving DecidableEq, Repr

/-- The `jwt.Claims` interface surface the default validator consults,
together with the claims-segment decoding for the concrete type.
Times are Unix milliseconds (`time.Time` at the second precision the
`NumericDate` truncation leaves). -/
structure ClaimsOps (α : Type) where
  unmarshal : Json → Option α
  getExpirationTime : α → Except Unit (Option Int)
  getNotBefore : α → Except Unit (Option Int)

/-- `jwt.Validator.Validate` with default options: always check `exp` and
`nbf` (both optional in presence), `iat` unchecked, no expected
audience/issuer/subject; an accessor error is itself a validation error.
Valid when `now < exp` and `nbf ≤ now`. -/
def validateClaims {α : Type} (ops : ClaimsOps α) (now : Int) (a : α) : List ValErr :=
  (match ops.getExpirationTime a with
   | .error _ => [ValErr.expAccessor]
   | .ok none => []
   | .ok (some e) => if now < e then [] else [ValErr.expired]) ++
  (match ops.getNotBefore a with
   | .error _ => [ValErr.nbfAccessor]
   | .ok none => []
   | .ok (some n) => if now < n then [ValErr.notYetValid] else [])

inductive KeyfuncErr
  | unexpectedSigningMethod
  deriving DecidableEq, Repr

inductive JwtError
  | segments
  | headerB64
  | headerJson
  | claimB64
  | claimJson
  | algUnspecified
  | algUnavailable
  | keyfuncFailed (e : KeyfuncErr)
  | sigB64
  | sigVerify (e : VerifyErr)
  | invalidClaims (es : List ValErr)
  deriving DecidableEq, Repr

/-- Header (or `MapClaims`) target of `json.Unmarshal` into a
`map[string]interface\x7b\x7d`: the document must be an object (`null`
leaves the map empty). -/
def unmarshalMapFields (j : Json) : Option (List (String × Json)) :=
  match j with
  | .obj fs => some fs
  | .null => some []
  | _ => none

/-- `Parser.ParseUnverified`: split, decode header (strict `json.Unmarshal`),
decode the claims segment (via `json.Decoder`), then look up the signing
method from the header's `alg`. -/
def parseUnverified {α : Type} (ops : ClaimsOps α) (jws : String) :
    Except JwtError (List (String × Json) × α × SigAlg) :=
  match splitOnDot jws with
  | [h, p, _s] =>
    (match b64decode h with
     | none => .error .headerB64
     | some hb =>
       match jsonUnmarshalBytes hb with
       | none => .error .headerJson
       | some hj =>
         match unmarshalMapFields hj with
         | none => .error .headerJson
         | some header =>
           match b64decode p with
           | none => .error .claimB64
           | some pb =>
             match jsonDecodeOne pb with
             | none => .error .claimJson
             | some pj =>
               match ops.unmarshal pj with
               | none => .error .claimJson
               | some a =>
                 match jLookup header "alg" with
                 | some (.str algName) =>
                     (match getSigningMethod algName with
                      | some m => .ok (header, a, m)
                      | none => .error .algUnavailable)
                 | _ => .error .algUnspecified)
  | _ => .error .segments

/-- `Parser.ParseWithClaims`: unverified parse, keyfunc, signature decode,
`Method.Verify`, then claims validation. -/
def parseWithClaims {α : Type} (ops : ClaimsOps α) (oracle : RSAOracle)
    (keyfunc : SigAlg → List (String × Json) → Except KeyfuncErr RSAPublicKey)
    (now : Int) (jws : String) : Except JwtError α :=
  match parseUnverified ops jws with
  | .error e => .error e
  | .ok (header, a, m) =>
    match keyfunc m header with
    | .error e => .error (.keyfuncFailed e)
    | .ok key =>
      match splitOnDot jws with
      | [h, p, s] =>
        (match b64decode s with
         | none => .error .sigB64
         | some sig =>
           match methodVerify oracle m key (h ++ "." ++ p) sig with
           | some e => .error (.sigVerify e)
           | none =>
             match validateClaims ops now a with
             | [] => .ok a
             | es => .error (.invalidClaims es))
      | _ => .error .segments

/-- `jwt.MapClaims` claim accessors: `parseNumericDate` on the given key; a
missing key is `nil`, a JSON number is seconds (milliseconds here), any other
type is an error. -/
def mapClaimsDate (fields : List (String × Json)) (key : String) : Except Unit (Option Int) :=
  match jLookup fields key with
  | none => .ok none
  | some (.num n) => .ok (some (n * 1000))
  | some _ => .error ()

def mapClaimsOps : ClaimsOps (List (String × Json)) where
  unmarshal := unmarshalMapFields
  getExpirationTime := fun fs => mapClaimsDate fs "exp"
  getNotBefore := fun fs => mapClaimsDate fs "nbf"

/-! ## Claim accessors (`subscription.go`, `client.go`) -/

/-- `SubscriptionInfo.parseJWT`: unverified parse of the nested
`SignedTransactionInfo` token into `jwt.MapClaims`. -/
def SubscriptionInfo.parseJWT (signedJWT : String) : Except Unit (List (String × Json)) :=
  match parseUnverified mapClaimsOps signedJWT with
  | .error _ => .error ()
  | .ok (_, claims, _) => .ok claims

/-- `SubscriptionInfo.GetExpirationTime`: the `exp` claim of the *nested*
signed transaction token; an unparseable nested token or a missing/non-number
claim is an error (never `nil`). -/
def SubscriptionInfo.GetExpirationTime (s : SubscriptionInfo) : Except Unit (Option Int) :=
  match SubscriptionInfo.parseJWT s.SignedTransactionInfo with
  | .error _ => .error ()
  | .ok claims =>
    match jLookup claims "exp" with
    | some (.num n) => .ok (some (n * 1000))
    | _ => .error ()

/-- `SubscriptionInfo.GetNotBefore`: same, for `nbf`. -/
def SubscriptionInfo.GetNotBefore (s : SubscriptionInfo) : Except Unit (Option Int) :=
  match SubscriptionInfo.parseJWT s.SignedTransactionInfo with
  | .error _ => .error ()
  | .ok claims =>
    match jLookup claims "nbf" with
    | some (.num n) => .ok (some (n * 1000))
    | _ => .error ()

/-- `JWSRenewalInfoDecodedPayload.GetExpirationTime`: error when
`ExpiresDate` is unset (zero); otherwise `ExpiresDate` milliseconds truncated
to the second (the `NumericDate` precision). -/
def JWSRenewalInfoDecodedPayload.GetExpirationTime
    (J : JWSRenewalInfoDecodedPayload) : Except Unit (Option Int) :=
  if J.ExpiresDate = 0 then .error ()
  else .ok (some (J.ExpiresDate / 1000 * 1000))

/-- `JWSRenewalInfoDecodedPayload.GetNotBefore` always reports no claim. -/
def JWSRenewalInfoDecodedPayload.GetNotBefore
    (_J : JWSRenewalInfoDecodedPayload) : Except Unit (Option Int) := .ok none

def subscriptionOps : ClaimsOps SubscriptionInfo where
  unmarshal := unmarshalSubscriptionInfo
  getExpirationTime := SubscriptionInfo.GetExpirationTime
  getNotBefore := SubscriptionInfo.GetNotBefore

def renewalInfoOps : ClaimsOps JWSRenewalInfoDecodedPayload where
  unmarshal := unmarshalRenewalInfo
  getExpirationTime := JWSRenewalInfoDecodedPayload.GetExpirationTime
  getNotBefore := JWSRenewalInfoDecodedPayload.GetNotBefore

/-! ## Top-level operations (`JWT.go`, `client.go`) -/

inductive AppErr
  | fetchFailed (e : FetchErr)
  | parseFailed (e : JwtError)
  | kidMissing
  | nilJWKDeref
  | keyResolution (e : KeyErr)
  | verifyFailed (e : JwtError)
  deriving DecidableEq, Repr

/-- The verification pipeline common to the typed entry points, generic in
the claim-set shape: fetch the key directory, extract `kid` from the
unverified header, resolve the RSA key, then run `jwt.ParseWithClaims` with
a keyfunc that returns the resolved key unconditionally.
`nilJWKDeref` marks the run-time fault of dereferencing the nil `*AppleJWK`
a body of `null` leaves behind. -/
def verifyJWS {α : Type} (ops : ClaimsOps α) (oracle : RSAOracle)
    (cache : Option AppleJWK) (resp : Except Unit HttpResp) (now : Int) (jws : String) :
    Option AppleJWK × Except AppErr α :=
  match fetchAppleJWKs cache resp with
  | (c, .error e) => (c, .error (.fetchFailed e))
  | (c, .ok jwkPtr) =>
    match parseUnverified mapClaimsOps jws with
    | .error e => (c, .error (.parseFailed e))
    | .ok (header, _claims, _m) =>
      match jLookup header "kid" with
      | some (.str kid) =>
        (match jwkPtr with
         | none => (c, .error .nilJWKDeref)
         | some jwkSet =>
           match getAppleRSAPublicKey jwkSet.Keys kid with
           | .error e => (c, .error (.keyResolution e))
           | .ok pubKey =>
             match parseWithClaims ops oracle (fun _ _ => .ok pubKey) now jws with
             | .error e => (c, .error (.verifyFailed e))
             | .ok payload => (c, .ok payload))
      | _ => (c, .error .kidMissing)

/-- `VerifyJWSTransaction` (`JWT.go`), transliterated. -/
def VerifyJWSTransaction (oracle : RSAOracle) (cache : Option AppleJWK)
    (resp : Except Unit HttpResp) (now : Int) (jws : String) :
    Option AppleJWK × Except AppErr SubscriptionInfo :=
  match fetchAppleJWKs cache resp with
  | (c, .error e) => (c, .error (.fetchFailed e))
  | (c, .ok jwkPtr) =>
    match parseUnverified mapClaimsOps jws with
    | .error e => (c, .error (.parseFailed e))
    | .ok (header, _claims, _m) =>
      match jLookup header "kid" with
      | some (.str kid) =>
        (match jwkPtr with
         | none => (c, .error .nilJWKDeref)
         | some jwkSet =>
           match getAppleRSAPublicKey jwkSet.Keys kid with
           | .error e => (c, .error (.keyResolution e))
           | .ok pubKey =>
             match parseWithClaims subscriptionOps oracle (fun _ _ => .ok pubKey) now jws with
             | .error e => (c, .error (.verifyFailed e))
             | .ok payload => (c, .ok payload))
      | _ => (c, .error .kidMissing)

/-- `VerifyJWSRenewalInfo` (`client.go`), transliterated. -/
def VerifyJWSRenewalInfo (oracle : RSAOracle) (cache : Option AppleJWK)
    (resp : Except Unit HttpResp) (now : Int) (jws : String) :
    Option AppleJWK × Except AppErr JWSRenewalInfoDecodedPayload :=
  match fetchAppleJWKs cache resp with
  | (c, .error e) => (c, .error (.fetchFailed e))
  | (c, .ok jwkPtr) =>
    match parseUnverified mapClaimsOps jws with
    | .error e => (c, .error (.parseFailed e))
    | .ok (header, _claims, _m) =>
      match jLookup header "kid" with
      | some (.str kid) =>
        (match jwkPtr with
         | none => (c, .error .nilJWKDeref)
         | some jwkSet =>
           match getAppleRSAPublicKey jwkSet.Keys kid with
           | .error e => (c, .error (.keyResolution e))
           | .ok pubKey =>
             match parseWithClaims renewalInfoOps oracle (fun _ _ => .ok pubKey) now jws with
             | .error e => (c, .error (.verifyFailed e))
             | .ok payload => (c, .ok payload))
      | _ => (c, .error .kidMissing)

/-- `VerifyJWT` (`JWT.go`): same resolution steps, but `jwt.Parse` with
`MapClaims` and a keyfunc that rejects any method whose concrete type is not
`*jwt.SigningMethodRSA` before handing out the key. -/
def VerifyJWT (oracle : RSAOracle) (cache : Option AppleJWK)
    (resp : Except Unit HttpResp) (now : Int) (jws : String) :
    Option AppleJWK × Except AppErr Unit :=
  match fetchAppleJWKs cache resp with
  | (c, .error e) => (c, .error (.fetchFailed e))
  | (c, .ok jwkPtr) =>
    match parseUnverified mapClaimsOps jws with
    | .error e => (c, .error (.parseFailed e))
    | .ok (header, _claims, _m) =>
      match jLookup header "kid" with
      | some (.str kid) =>
        (match jwkPtr with
         | none => (c, .error .nilJWKDeref)
         | some jwkSet =>
           match getAppleRSAPublicKey jwkSet.Keys kid with
           | .error e => (c, .error (.keyResolution e))
           | .ok pubKey =>
             match parseWithClaims mapClaimsOps oracle
                 (fun m _ => if m.isRSAMethod then .ok pubKey
                             else .error .unexpectedSigningMethod) now jws with
             | .error e => (c, .error (.verifyFailed e))
             | .ok _ => (c, .ok ()))
      | _ => (c, .error .kidMissing)

inductive DecodeErr
  | invalidFormat
  | payloadB64
  | payloadJson
  deriving DecidableEq, Repr

/-- `DecodeJWSTransaction` (`JWT.go`): split, base64url-decode the payload
segment, `json.Unmarshal` it. Only the segment count is checked. -/
def DecodeJWSTransaction (jws : String) : Except DecodeErr SubscriptionInfo :=
  match splitOnDot jws with
  | [_h, p, _s] =>
    (match b64decode p with
     | none => .error .payloadB64
     | some pb =>
       match jsonUnmarshalBytes pb with
       | none => .error .payloadJson
       | some pj =>
         match unmarshalSubscriptionInfo pj with
         | none => .error .payloadJson
         | some t => .ok t)
  | _ => .error .invalidFormat

/-- `JWSRenewalInfoDecoded` (`client.go`): same shape, renewal payload. -/
def JWSRenewalInfoDecoded (jws : String) : Except DecodeErr JWSRenewalInfoDecodedPayload :=
  match splitOnDot jws with
  | [_h, p, _s] =>
    (match b64decode p with
     | none => .error .payloadB64
     | some pb =>
       match jsonUnmarshalBytes pb with
       | none => .error .payloadJson
       | some pj =>
         match unmarshalRenewalInfo pj with
         | none => .error .payloadJson
         | some t => .ok t)
  | _ => .error .invalidFormat

/-! ## Authorization issuer (`JWT.go`) -/

inductive GenErr
  | invalidPEM
  | ecParseFailed
  | signFailed
  deriving DecidableEq, Repr

/-- The claim set `GenerateAuthorizationJWT` builds, as `json.Marshal`
serializes it (map keys in sorted order). Times: `now` is wall clock in
milliseconds; `Unix()` floors to seconds. -/
def authClaimsFields (Iss Bid : String) (now : Int) : List (String × Json) :=
  [("aud", .str "appstoreconnect-v1"), ("bid", .str Bid),
   ("exp", .num ((now + 1800000) / 1000)), ("iat", .num (now / 1000)),
   ("iss", .str Iss)]

def authClaimsJson (Iss Bid : String) (now : Int) : Json :=
  .obj (authClaimsFields Iss Bid now)

/-- The token header: `typ`/`alg` from `jwt.NewWithClaims`, plus the caller's
`kid`; keys in `json.Marshal` sorted order. -/
def authHeaderFields (Kid : String) : List (String × Json) :=
  [("alg", .str "ES256"), ("kid", .str Kid), ("typ", .str "JWT")]

def authHeaderJson (Kid : String) : Json :=
  .obj (authHeaderFields Kid)

/-- `GenerateAuthorizationJWT`: PEM-decode the private key (block type must
be `PRIVATE KEY`), parse the EC key, build the claims and header, and sign
`header64.claims64` with ES256. PEM/x509 parsing and the ECDSA signature are
oracle parameters over an abstract key type. -/
def GenerateAuthorizationJWT {κ : Type}
    (pemDecode : String → Option (String × Bytes))
    (parseECPrivateKey : Bytes → Option κ)
    (sign : κ → String → Option Bytes)
    (now : Int) (Kid Bid Iss privateKeyStr : String) : Except GenErr String :=
  match pemDecode privateKeyStr with
  | none => .error .invalidPEM
  | some (blockType, blockBytes) =>
    if blockType ≠ "PRIVATE KEY" then .error .invalidPEM
    else
      match parseECPrivateKey blockBytes with
      | none => .error .ecParseFailed
      | some key =>
        let signingString :=
          b64encode (strBytes (jsonSerialize (authHeaderJson Kid))) ++ "." ++
          b64encode (strBytes (jsonSerialize (authClaimsJson Iss Bid now)))
        match sign key signingString with
        | none => .error .signFailed
        | some sig => .ok (signingString ++ "." ++ b64encode sig)

/-! ## Codec lemmas -/

theorem splitDotChars_ne_nil : ∀ cs : List Char, splitDotChars cs ≠ []
  | [] => by simp [splitDotChars]
  | c :: rest => by
      simp only [splitDotChars]
      cases h : splitDotChars rest with
      | nil => simp
      | cons a as => dsimp only; split <;> simp

theorem splitDotChars_no_dot (cs : List Char) (h : '.' ∉ cs) : splitDotChars cs = [cs] := by
  induction cs with
  | nil => rfl
  | cons c rest ih =>
    have hc : c ≠ '.' := fun e => h (e ▸ List.mem_cons_self c rest)
    have hr : '.' ∉ rest := fun m => h (List.mem_cons_of_mem _ m)
    simp [splitDotChars, ih hr, hc]

theorem splitDotChars_dot_append (a rest : List Char) (ha : '.' ∉ a) :
    splitDotChars (a ++ '.' :: rest) = a :: splitDotChars rest := by
  induction a with
  | nil =>
    simp only [List.nil_append, splitDotChars]
    cases h : splitDotChars rest with
    | nil => exact absurd h (splitDotChars_ne_nil rest)
    | cons x xs => simp
  | cons c a2 ih =>
    have hc : c ≠ '.' := fun e => ha (e ▸ List.mem_cons_self c a2)
    have ha2 : '.' ∉ a2 := fun m => ha (List.mem_cons_of_mem _ m)
    simp [splitDotChars, ih ha2, hc]

theorem string_mk_data (s : String) : String.mk s.data = s := by cases s; rfl

theorem string_data_append (a b : String) : (a ++ b).data = a.data ++ b.data := rfl

theorem splitOnDot_three (h p s : String)
    (hh : '.' ∉ h.data) (hp : '.' ∉ p.data) (hs : '.' ∉ s.data) :
    splitOnDot (h ++ "." ++ p ++ "." ++ s) = [h, p, s] := by
  have hdata : (h ++ "." ++ p ++ "." ++ s).data =
      h.data ++ '.' :: (p.data ++ '.' :: s.data) := by
    simp [string_data_append]
  unfold splitOnDot
  rw [hdata, splitDotChars_dot_append _ _ hh, splitDotChars_dot_append _ _ hp,
      splitDotChars_no_dot _ hs]
  simp [string_mk_data]

theorem b64Chr_ne_dot (n : Nat) : b64Chr n ≠ '.' := by
  by_cases hn : n < 64
  · exact (by decide : ∀ m, m < 64 → b64Chr m ≠ '.') n hn
  · unfold b64Chr
    rw [if_neg (by omega), if_neg (by omega), if_neg (by omega), if_neg (by omega)]
    decide

theorem b64encodeBytes_no_dot : ∀ bs : Bytes, '.' ∉ b64encodeBytes bs
  | [] => by simp [b64encodeBytes]
  | [x] => by
      simp only [b64encodeBytes, List.mem_cons, List.not_mem_nil, or_false]
      rintro (h | h) <;> exact b64Chr_ne_dot _ h.symm
  | [x, y] => by
      simp only [b64encodeBytes, List.mem_cons, List.not_mem_nil, or_false]
      rintro (h | h | h) <;> exact b64Chr_ne_dot _ h.symm
  | x :: y :: z :: rest => by
      simp only [b64encodeBytes, List.mem_cons]
      rintro (h | h | h | h | h)
      · exact b64Chr_ne_dot _ h.symm
      · exact b64Chr_ne_dot _ h.symm
      · exact b64Chr_ne_dot _ h.symm
      · exact b64Chr_ne_dot _ h.symm
      · exact b64encodeBytes_no_dot rest h

theorem b64encode_no_dot (bs : Bytes) : '.' ∉ (b64encode bs).data :=
  b64encodeBytes_no_dot bs

/-! ## Fixtures -/

def goodJWKBody : Json :=
  .obj [("keys", .arr [.obj [("kty", .str "RSA"), ("kid", .str "k1"), ("use", .str "sig"),
    ("alg", .str "RS256"), ("n", .str "AQAB"), ("e", .str "AQAB")]])]

def testJWKSet : AppleJWK := ⟨[⟨"RSA", "k1", "sig", "RS256", "AQAB", "AQAB"⟩]⟩

def respGood : Except Unit HttpResp := .ok ⟨200, some goodJWKBody⟩

def oracleTrue : RSAOracle := fun _ _ _ _ _ => true

def hdrRS : String := b64encode (strBytes "\x7b\"alg\":\"RS256\",\"kid\":\"k1\"\x7d")
def hdrES : String := b64encode (strBytes "\x7b\"alg\":\"ES256\",\"kid\":\"k1\"\x7d")
def payloadFuture : String := b64encode (strBytes "\x7b\"expiresDate\":2000000000000\x7d")
def payloadPast : String := b64encode (strBytes "\x7b\"expiresDate\":1000\x7d")
def jwsFuture : String := hdrRS ++ "." ++ payloadFuture ++ ".sig"
def jwsPast : String := hdrRS ++ "." ++ payloadPast ++ ".sig"
def jwsES : String := hdrES ++ "." ++ payloadFuture ++ ".sig"

def futureRenewalPayload : JWSRenewalInfoDecodedPayload := { ExpiresDate := 2000000000000 }
def pastRenewalPayload : JWSRenewalInfoDecodedPayload := { ExpiresDate := 1000 }

example : unmarshalJWKPtr goodJWKBody = (some testJWKSet, false) := by decide
example : fetchAppleJWKs none respGood = (some testJWKSet, .ok (some testJWKSet)) := by decide
example : getAppleRSAPublicKey testJWKSet.Keys "k1" = .ok ⟨65537, 65537⟩ := by decide
example : VerifyJWSRenewalInfo oracleTrue (some testJWKSet) respGood 1700000000000 jwsFuture =
    (some testJWKSet, .ok futureRenewalPayload) := by decide

/-! ## Interleaving model of concurrent `FetchAppleJWKs` callers

`FetchAppleJWKs` runs three observable phases against the process-wide
globals: read the cache (line 29), issue `http.Get` (line 33), decode the
body into the global (line 39). Two goroutines running the function are
modelled as program counters over these phases with the steps interleaved by
a schedule; `fetched` is what a completed fetch writes (the decode of the
endpoint's body). There is no lock anywhere in the source, so every
interleaving of the phases is possible. -/

inductive GoPC
  | checking
  | fetching
  | finished
  deriving DecidableEq, Repr

structure ConcState where
  cache : Option AppleJWK
  fetchCount : Nat
  pcA : GoPC
  pcB : GoPC
  deriving DecidableEq, Repr

/-- One phase of one caller: a cache miss moves to `fetching` and issues the
HTTP request; a completed fetch decodes into the global cache. -/
def stepPC (fetched : Option AppleJWK) (cache : Option AppleJWK) (count : Nat) :
    GoPC → GoPC × Option AppleJWK × Nat
  | .checking => if cache.isSome then (.finished, cache, count) else (.fetching, cache, count + 1)
  | .fetching => (.finished, fetched, count)
  | .finished => (.finished, cache, count)

def concStep (fetched : Option AppleJWK) (s : ConcState) (useB : Bool) : ConcState :=
  if useB then
    let (pc, c, n) := stepPC fetched s.cache s.fetchCount s.pcB
    { s with pcB := pc, cache := c, fetchCount := n }
  else
    let (pc, c, n) := stepPC fetched s.cache s.fetchCount s.pcA
    { s with pcA := pc, cache := c, fetchCount := n }

def concInit : ConcState := ⟨none, 0, .checking, .checking⟩

def concRun (fetched : Option AppleJWK) (sched : List Bool) : ConcState :=
  sched.foldl (concStep fetched) concInit

/-! ## Claims -/

/-- C3 (counterexample): `FetchAppleJWKs` does not check the HTTP status: a
500 response whose body is the well-formed JSON document with no fields is
returned as a *successful* fetch of an empty key set (and cached), refuting
the claim that every non-200 response yields a fetch-failure error. -/
theorem c3_counterexample :
    fetchAppleJWKs none (.ok ⟨500, some (.obj [])⟩) =
      (some ⟨[]⟩, .ok (some ⟨[]⟩)) := rfl

/-- C3 (amended): a transport error or a body that is not well-formed JSON
is a fetch failure, but the HTTP status code is never inspected: the result
is entirely independent of the status. -/
theorem c3_amended :
    (fetchAppleJWKs none (Except.error ())).2 = .error FetchErr.network ∧
    (∀ st : Nat, (fetchAppleJWKs none (.ok ⟨st, none⟩)).2 = .error FetchErr.decodeFail) ∧
    (∀ st st' : Nat, ∀ b : Option Json,
      fetchAppleJWKs none (.ok ⟨st, b⟩) = fetchAppleJWKs none (.ok ⟨st', b⟩)) :=
  ⟨rfl, fun _ => rfl, fun _ _ _ => rfl⟩

/-- C4 (counterexample): a well-formed JSON body of the wrong shape
(`keys` bound to a number) makes the decode report an error, yet the eagerly
allocated value has already been written through the global pointer: the
cache is *not* left nil, and a subsequent call (even one whose own fetch
would fail) serves the empty partially-decoded key set as a cached
success. -/
theorem c4_counterexample :
    fetchAppleJWKs none (.ok ⟨200, some (.obj [("keys", .num 5)])⟩) =
      (some ⟨[]⟩, .error .decodeFail) ∧
    fetchAppleJWKs (some ⟨[]⟩) (.error ()) = (some ⟨[]⟩, .ok (some ⟨[]⟩)) :=
  ⟨rfl, rfl⟩

/-- C4 (amended): the cache stays nil when the transport fails or the body
is rejected by the JSON scanner, but once the body scans as a JSON value the
global receives exactly what `Decode` writes — even when decoding reports an
error — and any populated cache is served as success by later calls. -/
theorem c4_amended :
    (fetchAppleJWKs none (Except.error ())).1 = none ∧
    (∀ st : Nat, (fetchAppleJWKs none (.ok ⟨st, none⟩)).1 = none) ∧
    (∀ st : Nat, ∀ j : Json,
      (fetchAppleJWKs none (.ok ⟨st, some j⟩)).1 = (unmarshalJWKPtr j).1) ∧
    (∀ (r : Except Unit HttpResp) (k : AppleJWK),
      fetchAppleJWKs (some k) r = (some k, .ok (some k))) := by
  refine ⟨rfl, fun _ => rfl, fun st j => ?_, fun _ _ => rfl⟩
  show (match unmarshalJWKPtr j with
    | (written, bad) =>
      if bad then (written, Except.error FetchErr.decodeFail)
      else (written, Except.ok written)).1 = (unmarshalJWKPtr j).1
  rcases unmarshalJWKPtr j with ⟨written, bad⟩
  cases bad <;> rfl

/-- C5 (counterexample): an envelope of three dot-separated segments with
empty header and signature segments is *not* rejected as malformed: with
payload segment `e30` (the base64url of the empty JSON object) both decode
entry points succeed and return the zero-valued claim set. -/
theorem c5_counterexample :
    DecodeJWSTransaction ".e30." = .ok zeroSubscriptionInfo ∧
    JWSRenewalInfoDecoded ".e30." = .ok zeroRenewalInfo := by
  constructor <;> decide

/-- C5 (amended): the split step checks only that the input has exactly
three dot-separated segments; segment emptiness is never examined, so any
other segment count is rejected as malformed while empty segments fall
through to the payload decode. -/
theorem c5_amended (jws : String) (hlen : (splitOnDot jws).length ≠ 3) :
    DecodeJWSTransaction jws = .error .invalidFormat ∧
    JWSRenewalInfoDecoded jws = .error .invalidFormat := by
  rcases l : splitOnDot jws with _ | ⟨a, _ | ⟨b, _ | ⟨c, _ | ⟨d, t⟩⟩⟩⟩ <;>
    rw [l] at hlen <;> simp at hlen <;>
    constructor <;> simp [DecodeJWSTransaction, JWSRenewalInfoDecoded, l]

/-- C5 (witness for the amended claim): a one-segment input is malformed. -/
theorem c5_amended_witness :
    DecodeJWSTransaction "ab" = .error .invalidFormat ∧
    JWSRenewalInfoDecoded "ab" = .error .invalidFormat :=
  c5_amended "ab" (by decide)

/-- C6: exponent reconstruction in `GetAppleRSAPublicKey` for the first key
matching the kid: a decoded 1-byte exponent is its value, a 3-byte exponent
is read big-endian, and every other length fails with the invalid-encoding
error. -/
theorem c6_exponent_reconstruction (key : AppleJWKKey) (rest : List AppleJWKKey)
    (kid : String) (hk : key.Kid = kid) (nb eb : Bytes)
    (hn : b64decode key.N = some nb) (he : b64decode key.E = some eb) :
    (∀ b0, eb = [b0] →
      getAppleRSAPublicKey (key :: rest) kid = .ok ⟨bytesBE nb, b0⟩) ∧
    (∀ b0 b1 b2, eb = [b0, b1, b2] →
      getAppleRSAPublicKey (key :: rest) kid =
        .ok ⟨bytesBE nb, b0 * 65536 + b1 * 256 + b2⟩) ∧
    (eb.length ≠ 1 → eb.length ≠ 3 →
      getAppleRSAPublicKey (key :: rest) kid = .error .expLen) := by
  refine ⟨?_, ?_, ?_⟩
  · rintro b0 rfl
    simp [getAppleRSAPublicKey, hk, hn, he]
  · rintro b0 b1 b2 rfl
    simp [getAppleRSAPublicKey, hk, hn, he]
  · intro h1 h3
    rcases eb with _ | ⟨x, _ | ⟨y, _ | ⟨z, _ | ⟨w, t⟩⟩⟩⟩
    · simp [getAppleRSAPublicKey, hk, hn, he]
    · exact absurd rfl h1
    · simp [getAppleRSAPublicKey, hk, hn, he]
    · exact absurd rfl h3
    · simp [getAppleRSAPublicKey, hk, hn, he]

/-- C6 (witness): the literal inputs of the claim — `[0x03]` decodes to 3,
`[0x01,0x00,0x01]` to 65537, and a 2-byte exponent fails. -/
theorem c6_witness :
    getAppleRSAPublicKey [⟨"RSA", "k1", "sig", "RS256", "AQAB", "Aw"⟩] "k1" =
      .ok ⟨65537, 3⟩ ∧
    getAppleRSAPublicKey [⟨"RSA", "k1", "sig", "RS256", "AQAB", "AQAB"⟩] "k1" =
      .ok ⟨65537, 65537⟩ ∧
    getAppleRSAPublicKey [⟨"RSA", "k1", "sig", "RS256", "AQAB", "AAE"⟩] "k1" =
      .error .expLen := by
  refine ⟨?_, ?_, ?_⟩
  · exact (c6_exponent_reconstruction ⟨"RSA", "k1", "sig", "RS256", "AQAB", "Aw"⟩ [] "k1"
      rfl [1, 0, 1] [3] (by decide) (by decide)).1 3 rfl
  · exact (c6_exponent_reconstruction ⟨"RSA", "k1", "sig", "RS256", "AQAB", "AQAB"⟩ [] "k1"
      rfl [1, 0, 1] [1, 0, 1] (by decide) (by decide)).2.1 1 0 1 rfl
  · exact (c6_exponent_reconstruction ⟨"RSA", "k1", "sig", "RS256", "AQAB", "AAE"⟩ [] "k1"
      rfl [1, 0, 1] [0, 1] (by decide) (by decide)).2.2 (by decide) (by decide)

/-- C10 (counterexample): with no lock around the fetch-and-populate path,
the schedule A-check, B-check, A-fetch, B-fetch has *both* callers in
flight after the two checks and performs *two* outbound fetches in total,
refuting both the mutual-exclusion and the exactly-one-fetch claims. -/
theorem c10_counterexample :
    (concRun (some testJWKSet) [false, true]).pcA = GoPC.fetching ∧
    (concRun (some testJWKSet) [false, true]).pcB = GoPC.fetching ∧
    (concRun (some testJWKSet) [false, true, false, true]).fetchCount = 2 := by
  decide

/-- C10 (amended): the fetch-on-miss path is correct only sequentially: a
caller that runs to completion before the second starts yields exactly one
fetch and leaves the cache exactly as `FetchAppleJWKs` computes it, and a
caller that begins with a populated cache performs no fetch at all; nothing
guards concurrent interleavings. -/
theorem c10_amended :
    (concRun (some testJWKSet) [false, false, true]).fetchCount = 1 ∧
    (concRun (some testJWKSet) [false, false, true]).cache =
      (fetchAppleJWKs none respGood).1 ∧
    (∀ (k : AppleJWK) (n : Nat) (pcB : GoPC),
      concStep (some testJWKSet) ⟨some k, n, .checking, pcB⟩ false =
        ⟨some k, n, .finished, pcB⟩) := by
  refine ⟨by decide, by decide, fun k n pcB => rfl⟩

/-- C8: unverified decoding is independent of the signature segment — for a
well-formed three-segment envelope whose payload decodes, both decode entry
points succeed and return the same claim set for any two signature
segments. -/
theorem c8_decode_signature_independent
    (h p s s' : String)
    (hh : '.' ∉ h.data) (hp : '.' ∉ p.data) (hs : '.' ∉ s.data) (hs' : '.' ∉ s'.data)
    (pb : Bytes) (pj : Json) (t : SubscriptionInfo) (r : JWSRenewalInfoDecodedPayload)
    (hb : b64decode p = some pb) (hj : jsonUnmarshalBytes pb = some pj)
    (ht : unmarshalSubscriptionInfo pj = some t) (hr : unmarshalRenewalInfo pj = some r) :
    DecodeJWSTransaction (h ++ "." ++ p ++ "." ++ s) = .ok t ∧
    DecodeJWSTransaction (h ++ "." ++ p ++ "." ++ s') = .ok t ∧
    JWSRenewalInfoDecoded (h ++ "." ++ p ++ "." ++ s) = .ok r ∧
    JWSRenewalInfoDecoded (h ++ "." ++ p ++ "." ++ s') = .ok r := by
  refine ⟨?_, ?_, ?_, ?_⟩ <;>
    simp [DecodeJWSTransaction, JWSRenewalInfoDecoded,
      splitOnDot_three _ _ _ hh hp hs, splitOnDot_three _ _ _ hh hp hs', hb, hj, ht, hr]

/-- C8 (witness): two envelopes differing only in the signature segment
decode to the same zero-valued claim sets. -/
theorem c8_witness :
    DecodeJWSTransaction ("x" ++ "." ++ "e30" ++ "." ++ "a") = .ok zeroSubscriptionInfo ∧
    DecodeJWSTransaction ("x" ++ "." ++ "e30" ++ "." ++ "b") = .ok zeroSubscriptionInfo ∧
    JWSRenewalInfoDecoded ("x" ++ "." ++ "e30" ++ "." ++ "a") = .ok zeroRenewalInfo ∧
    JWSRenewalInfoDecoded ("x" ++ "." ++ "e30" ++ "." ++ "b") = .ok zeroRenewalInfo :=
  c8_decode_signature_independent "x" "e30" "a" "b"
    (by decide) (by decide) (by decide) (by decide)
    [0x7b, 0x7d] (.obj []) zeroSubscriptionInfo zeroRenewalInfo
    (by decide) rfl rfl rfl

/-- C9 (counterexample): the two typed entry points do *not* agree on
success/failure for every input: on the same renewal-style envelope (valid
signature, future `expiresDate`) the renewal entry point succeeds while the
transaction entry point fails, because claims validation runs the decoded
shape's accessors and `SubscriptionInfo`'s accessors re-parse its (empty)
nested `SignedTransactionInfo` token. -/
theorem c9_counterexample :
    VerifyJWSRenewalInfo oracleTrue (some testJWKSet) respGood 1700000000000 jwsFuture =
      (some testJWKSet, .ok futureRenewalPayload) ∧
    VerifyJWSTransaction oracleTrue (some testJWKSet) respGood 1700000000000 jwsFuture =
      (some testJWKSet,
        .error (.verifyFailed (.invalidClaims [.expAccessor, .nbfAccessor]))) := by
  constructor <;> decide

theorem verifyTransaction_refines (oracle : RSAOracle) (cache : Option AppleJWK)
    (resp : Except Unit HttpResp) (now : Int) (jws : String) :
    VerifyJWSTransaction oracle cache resp now jws =
      verifyJWS subscriptionOps oracle cache resp now jws := by
  unfold VerifyJWSTransaction verifyJWS
  rcases fetchAppleJWKs cache resp with ⟨c, e | jwkPtr⟩
  · rfl
  rcases parseUnverified mapClaimsOps jws with e | ⟨header, a, m⟩
  · rfl
  dsimp only
  rcases jLookup header "kid" with _ | v
  · rfl
  rcases v with _ | b | n | kid | xs | fs <;> try rfl
  rcases jwkPtr with _ | J
  · rfl
  dsimp only
  rcases getAppleRSAPublicKey J.Keys kid with e | pk
  · rfl
  dsimp only
  rcases parseWithClaims subscriptionOps oracle (fun _ _ => .ok pk) now jws
    with e | payload <;> rfl

theorem verifyRenewal_refines (oracle : RSAOracle) (cache : Option AppleJWK)
    (resp : Except Unit HttpResp) (now : Int) (jws : String) :
    VerifyJWSRenewalInfo oracle cache resp now jws =
      verifyJWS renewalInfoOps oracle cache resp now jws := by
  unfold VerifyJWSRenewalInfo verifyJWS
  rcases fetchAppleJWKs cache resp with ⟨c, e | jwkPtr⟩
  · rfl
  rcases parseUnverified mapClaimsOps jws with e | ⟨header, a, m⟩
  · rfl
  dsimp only
  rcases jLookup header "kid" with _ | v
  · rfl
  rcases v with _ | b | n | kid | xs | fs <;> try rfl
  rcases jwkPtr with _ | J
  · rfl
  dsimp only
  rcases getAppleRSAPublicKey J.Keys kid with e | pk
  · rfl
  dsimp only
  rcases parseWithClaims renewalInfoOps oracle (fun _ _ => .ok pk) now jws
    with e | payload <;> rfl

/-- C9 (amended): both typed entry points are instances of one generic
pipeline (fetch, unverified kid extraction, key resolution, signature check,
typed decode) differing only in the claim-set shape handed to it; but the
shape also feeds payload decoding and claims validation, so success/failure
may differ between them on the same input. -/
theorem c9_amended :
    (∀ (oracle : RSAOracle) (cache : Option AppleJWK) (resp : Except Unit HttpResp)
      (now : Int) (jws : String),
      VerifyJWSTransaction oracle cache resp now jws =
        verifyJWS subscriptionOps oracle cache resp now jws) ∧
    (∀ (oracle : RSAOracle) (cache : Option AppleJWK) (resp : Except Unit HttpResp)
      (now : Int) (jws : String),
      VerifyJWSRenewalInfo oracle cache resp now jws =
        verifyJWS renewalInfoOps oracle cache resp now jws) :=
  ⟨verifyTransaction_refines, verifyRenewal_refines⟩

/-- C1 (counterexample): an envelope declaring `ES256` whose kid resolves to
an RSA key. The typed verification operations hand the RSA key to the ECDSA
method and fail *inside the attempted verification* with the key-type error
of the signature stage — not with an algorithm-mismatch error; only
`VerifyJWT` rejects in its keyfunc before verification. -/
theorem c1_counterexample :
    VerifyJWSTransaction oracleTrue (some testJWKSet) respGood 1700000000000 jwsES =
      (some testJWKSet, .error (.verifyFailed (.sigVerify .invalidKeyType))) ∧
    VerifyJWSRenewalInfo oracleTrue (some testJWKSet) respGood 1700000000000 jwsES =
      (some testJWKSet, .error (.verifyFailed (.sigVerify .invalidKeyType))) ∧
    VerifyJWT oracleTrue (some testJWKSet) respGood 1700000000000 jwsES =
      (some testJWKSet, .error (.verifyFailed (.keyfuncFailed .unexpectedSigningMethod))) := by
  refine ⟨by decide, by decide, by decide⟩

/-- C1 (amended): for an envelope whose pipeline reaches the resolved RSA
key with a header algorithm of the ECDSA or HMAC family, `VerifyJWT` fails
with the keyfunc's algorithm-mismatch error before any verification, while
`VerifyJWSTransaction` and `VerifyJWSRenewalInfo` (whose keyfuncs perform no
algorithm check) proceed into `Method.Verify` and fail there with the
signature-stage key-type error. -/
theorem c1_amended (oracle : RSAOracle) (cache st : Option AppleJWK)
    (resp : Except Unit HttpResp) (now : Int)
    (h p s : String) (hh : '.' ∉ h.data) (hp : '.' ∉ p.data) (hs : '.' ∉ s.data)
    (J : AppleJWK) (hf : fetchAppleJWKs cache resp = (st, .ok (some J)))
    (hb : Bytes) (hhb : b64decode h = some hb)
    (hjh : Json) (hhj : jsonUnmarshalBytes hb = some hjh)
    (header : List (String × Json)) (hhm : unmarshalMapFields hjh = some header)
    (pb : Bytes) (hpb : b64decode p = some pb)
    (pj : Json) (hpj : jsonDecodeOne pb = some pj)
    (mclaims : List (String × Json)) (hmc : unmarshalMapFields pj = some mclaims)
    (algName : String) (halg : jLookup header "alg" = some (.str algName))
    (m : SigAlg) (hm : getSigningMethod algName = some m)
    (hfam : m = .ES256 ∨ m = .ES384 ∨ m = .ES512 ∨ m = .HS256 ∨ m = .HS384 ∨ m = .HS512)
    (kid : String) (hkid : jLookup header "kid" = some (.str kid))
    (pk : RSAPublicKey) (hpk : getAppleRSAPublicKey J.Keys kid = .ok pk)
    (sigB : Bytes) (hsig : b64decode s = some sigB)
    (tp : SubscriptionInfo) (htp : unmarshalSubscriptionInfo pj = some tp)
    (rp : JWSRenewalInfoDecodedPayload) (hrp : unmarshalRenewalInfo pj = some rp) :
    VerifyJWT oracle cache resp now (h ++ "." ++ p ++ "." ++ s) =
      (st, .error (.verifyFailed (.keyfuncFailed .unexpectedSigningMethod))) ∧
    VerifyJWSTransaction oracle cache resp now (h ++ "." ++ p ++ "." ++ s) =
      (st, .error (.verifyFailed (.sigVerify .invalidKeyType))) ∧
    VerifyJWSRenewalInfo oracle cache resp now (h ++ "." ++ p ++ "." ++ s) =
      (st, .error (.verifyFailed (.sigVerify .invalidKeyType))) := by
  have hsplit := splitOnDot_three h p s hh hp hs
  have hparse : parseUnverified mapClaimsOps (h ++ "." ++ p ++ "." ++ s) =
      .ok (header, mclaims, m) := by
    simp [parseUnverified, hsplit, hhb, hhj, hhm, hpb, hpj, hmc, halg, hm, mapClaimsOps]
  have hparseSub : parseUnverified subscriptionOps (h ++ "." ++ p ++ "." ++ s) =
      .ok (header, tp, m) := by
    simp [parseUnverified, hsplit, hhb, hhj, hhm, hpb, hpj, htp, halg, hm, subscriptionOps]
  have hparseRen : parseUnverified renewalInfoOps (h ++ "." ++ p ++ "." ++ s) =
      .ok (header, rp, m) := by
    simp [parseUnverified, hsplit, hhb, hhj, hhm, hpb, hpj, hrp, halg, hm, renewalInfoOps]
  have hRSA : m.isRSAMethod = false := by
    rcases hfam with rfl | rfl | rfl | rfl | rfl | rfl <;> rfl
  have hmv : ∀ (k : RSAPublicKey) (ss : String) (sg : Bytes),
      methodVerify oracle m k ss sg = some .invalidKeyType := by
    intro k ss sg
    rcases hfam with rfl | rfl | rfl | rfl | rfl | rfl <;> rfl
  refine ⟨?_, ?_, ?_⟩
  · simp [VerifyJWT, hf, hparse, hkid, hpk, parseWithClaims, hRSA]
  · simp [VerifyJWSTransaction, hf, hparse, hparseSub, hkid, hpk, parseWithClaims,
      hsplit, hsig, hmv]
  · simp [VerifyJWSRenewalInfo, hf, hparse, hparseRen, hkid, hpk, parseWithClaims,
      hsplit, hsig, hmv]

/-- C1 (witness for the amended claim): the ES256 fixture envelope against
the RSA directory key. -/
theorem c1_amended_witness :
    VerifyJWT oracleTrue (some testJWKSet) respGood 1700000000000
        (hdrES ++ "." ++ payloadFuture ++ "." ++ "sig") =
      (some testJWKSet, .error (.verifyFailed (.keyfuncFailed .unexpectedSigningMethod))) ∧
    VerifyJWSTransaction oracleTrue (some testJWKSet) respGood 1700000000000
        (hdrES ++ "." ++ payloadFuture ++ "." ++ "sig") =
      (some testJWKSet, .error (.verifyFailed (.sigVerify .invalidKeyType))) ∧
    VerifyJWSRenewalInfo oracleTrue (some testJWKSet) respGood 1700000000000
        (hdrES ++ "." ++ payloadFuture ++ "." ++ "sig") =
      (some testJWKSet, .error (.verifyFailed (.sigVerify .invalidKeyType))) :=
  c1_amended oracleTrue (some testJWKSet) (some testJWKSet) respGood 1700000000000
    hdrES payloadFuture "sig" (by decide) (by decide) (by decide)
    testJWKSet (by decide)
    (strBytes "\x7b\"alg\":\"ES256\",\"kid\":\"k1\"\x7d") (by decide)
    (.obj [("alg", .str "ES256"), ("kid", .str "k1")]) rfl
    [("alg", .str "ES256"), ("kid", .str "k1")] rfl
    (strBytes "\x7b\"expiresDate\":2000000000000\x7d") (by decide)
    (.obj [("expiresDate", .num 2000000000000)]) rfl
    [("expiresDate", .num 2000000000000)] rfl
    "ES256" rfl .ES256 rfl (Or.inl rfl)
    "k1" rfl ⟨65537, 65537⟩ (by decide)
    [178, 40] (by decide)
    zeroSubscriptionInfo rfl
    futureRenewalPayload rfl

/-- A successful `ParseWithClaims` implies the default claims validation
passed. -/
theorem parseWithClaims_ok_valid {α : Type} (ops : ClaimsOps α) (oracle : RSAOracle)
    (keyfunc : SigAlg → List (String × Json) → Except KeyfuncErr RSAPublicKey)
    (now : Int) (jws : String) (a : α)
    (hok : parseWithClaims ops oracle keyfunc now jws = .ok a) :
    validateClaims ops now a = [] := by
  unfold parseWithClaims at hok
  rcases h1 : parseUnverified ops jws with e | ⟨header, a0, m⟩ <;> rw [h1] at hok
  · simp at hok
  try dsimp only at hok
  rcases h2 : keyfunc m header with e | key <;> rw [h2] at hok
  · simp at hok
  try dsimp only at hok
  rcases h3 : splitOnDot jws with _ | ⟨x, _ | ⟨y, _ | ⟨z, _ | ⟨w, t⟩⟩⟩⟩ <;>
    rw [h3] at hok <;> try simp at hok
  try dsimp only at hok
  rcases h4 : b64decode z with _ | sg <;> rw [h4] at hok
  · simp at hok
  try dsimp only at hok
  rcases h5 : methodVerify oracle m key (x ++ "." ++ y) sg with _ | e <;> rw [h5] at hok
  · try dsimp only at hok
    rcases h6 : validateClaims ops now a0 with _ | ⟨e, es⟩ <;> rw [h6] at hok
    · injection hok with ha
      subst ha
      exact h6
    · simp at hok
  · simp at hok

/-- C2 (amended): verification *does* enforce expiry — whenever
`VerifyJWSRenewalInfo` succeeds, the returned payload's `expiresDate` is set
and its second-truncated value lies strictly in the future; an expired or
unset `expiresDate` can never reach the caller as a success. -/
theorem c2_amended (oracle : RSAOracle) (cache : Option AppleJWK)
    (resp : Except Unit HttpResp) (now : Int) (jws : String)
    (st : Option AppleJWK) (p : JWSRenewalInfoDecodedPayload)
    (hok : VerifyJWSRenewalInfo oracle cache resp now jws = (st, .ok p)) :
    p.ExpiresDate ≠ 0 ∧ now < p.ExpiresDate / 1000 * 1000 := by
  unfold VerifyJWSRenewalInfo at hok
  rcases h1 : fetchAppleJWKs cache resp with ⟨c, r⟩
  rw [h1] at hok
  rcases r with e | jwkPtr
  · simp at hok
  try dsimp only at hok
  rcases h2 : parseUnverified mapClaimsOps jws with e | ⟨header, a0, m⟩ <;> rw [h2] at hok
  · simp at hok
  try dsimp only at hok
  rcases h3 : jLookup header "kid" with _ | v <;> rw [h3] at hok
  · simp at hok
  rcases v with _ | b | n | kid | xs | fs <;> try simp at hok
  rcases jwkPtr with _ | J
  · simp at hok
  try dsimp only at hok
  rcases h4 : getAppleRSAPublicKey J.Keys kid with e | pk <;> rw [h4] at hok
  · simp at hok
  try dsimp only at hok
  rcases h5 : parseWithClaims renewalInfoOps oracle (fun _ _ => .ok pk) now jws
    with e | payload <;> rw [h5] at hok
  · simp at hok
  try dsimp only at hok
  have hpayload : payload = p := by
    have hsnd := congrArg Prod.snd hok
    simpa using hsnd
  subst hpayload
  have hv := parseWithClaims_ok_valid renewalInfoOps oracle _ now jws payload h5
  unfold validateClaims at hv
  rcases hA : renewalInfoOps.getExpirationTime payload with u | oe <;> rw [hA] at hv
  · simp at hv
  have hA2 : JWSRenewalInfoDecodedPayload.GetExpirationTime payload = .ok oe := hA
  by_cases hz : payload.ExpiresDate = 0
  · rw [JWSRenewalInfoDecodedPayload.GetExpirationTime, if_pos hz] at hA2
    exact absurd hA2 (by simp)
  · rw [JWSRenewalInfoDecodedPayload.GetExpirationTime, if_neg hz] at hA2
    injection hA2 with hoe
    subst hoe
    refine ⟨hz, ?_⟩
    by_contra hlt
    simp only [hlt, if_false, reduceIte] at hv
    simp at hv

/-- C2 (witness for the amended claim): a concrete successful verification
of the future-dated fixture envelope. -/
theorem c2_amended_witness :
    futureRenewalPayload.ExpiresDate ≠ 0 ∧
    (1700000000000 : Int) < futureRenewalPayload.ExpiresDate / 1000 * 1000 :=
  c2_amended oracleTrue (some testJWKSet) respGood 1700000000000 jwsFuture
    (some testJWKSet) futureRenewalPayload (by decide)

/-- C2 (counterexample): an envelope whose signature check passes (the
oracle accepts) and whose payload decodes (`JWSRenewalInfoDecoded` succeeds)
but whose `expiresDate` lies in the past is *rejected* by
`VerifyJWSRenewalInfo` with the expired-token validation error, refuting the
claim that verification succeeds and leaves expiry to the caller. -/
theorem c2_counterexample :
    JWSRenewalInfoDecoded jwsPast = .ok pastRenewalPayload ∧
    pastRenewalPayload.ExpiresDate = 1000 ∧
    VerifyJWSRenewalInfo oracleTrue (some testJWKSet) respGood 1700000000000 jwsPast =
      (some testJWKSet, .error (.verifyFailed (.invalidClaims [.expired]))) := by
  refine ⟨by decide, rfl, by decide⟩

/-- C7: every successful issuance produces an envelope whose header segment
is exactly the serialized header carrying the supplied key id, and whose
payload segment is exactly the serialized claim set with issuer `Iss`,
audience `appstoreconnect-v1`, custom claim `bid = Bid`, issued-at the
current Unix time, and expiry exactly 30 minutes (1800 seconds) after
issued-at. -/
theorem c7_issuer_claims {κ : Type}
    (pemDecode : String → Option (String × Bytes))
    (parseECPrivateKey : Bytes → Option κ)
    (sign : κ → String → Option Bytes)
    (now : Int) (Kid Bid Iss pks env : String)
    (hok : GenerateAuthorizationJWT pemDecode parseECPrivateKey sign now Kid Bid Iss pks =
      .ok env) :
    (∃ sigSeg : String,
      splitOnDot env =
        [b64encode (strBytes (jsonSerialize (authHeaderJson Kid))),
         b64encode (strBytes (jsonSerialize (authClaimsJson Iss Bid now))), sigSeg]) ∧
    jLookup (authClaimsFields Iss Bid now) "iss" = some (.str Iss) ∧
    jLookup (authClaimsFields Iss Bid now) "aud" = some (.str "appstoreconnect-v1") ∧
    jLookup (authClaimsFields Iss Bid now) "bid" = some (.str Bid) ∧
    jLookup (authClaimsFields Iss Bid now) "iat" = some (.num (now / 1000)) ∧
    jLookup (authClaimsFields Iss Bid now) "exp" = some (.num (now / 1000 + 1800)) ∧
    jLookup (authHeaderFields Kid) "kid" = some (.str Kid) := by
  have hdiv : (now + 1800000) / 1000 = now / 1000 + 1800 := by
    have h := Int.add_mul_ediv_right now 1800 (show (1000 : Int) ≠ 0 by norm_num)
    norm_num at h
    exact h
  refine ⟨?_, rfl, rfl, rfl, rfl, ?_, rfl⟩
  · unfold GenerateAuthorizationJWT at hok
    rcases h1 : pemDecode pks with _ | ⟨bt, bb⟩ <;> rw [h1] at hok
    · simp at hok
    dsimp only at hok
    by_cases h2 : bt ≠ "PRIVATE KEY"
    · rw [if_pos h2] at hok; simp at hok
    rw [if_neg h2] at hok
    rcases h3 : parseECPrivateKey bb with _ | key <;> rw [h3] at hok
    · simp at hok
    dsimp only at hok
    rcases h4 : sign key (b64encode (strBytes (jsonSerialize (authHeaderJson Kid))) ++ "." ++
        b64encode (strBytes (jsonSerialize (authClaimsJson Iss Bid now))))
      with _ | sigB <;> rw [h4] at hok
    · simp at hok
    dsimp only at hok
    injection hok with henv
    refine ⟨b64encode sigB, ?_⟩
    rw [← henv]
    exact splitOnDot_three _ _ _ (b64encode_no_dot _) (b64encode_no_dot _) (b64encode_no_dot _)
  · show some (Json.num ((now + 1800000) / 1000)) = some (.num (now / 1000 + 1800))
    rw [hdiv]

/-- C7 (witness): a concrete issuance with stub PEM/EC/signing oracles. -/
theorem c7_witness :
    (∃ sigSeg : String,
      splitOnDot (b64encode (strBytes (jsonSerialize (authHeaderJson "KID1"))) ++ "." ++
          b64encode (strBytes (jsonSerialize (authClaimsJson "issuer-1" "com.example" 1234567))) ++
          "." ++ b64encode [1, 2, 3]) =
        [b64encode (strBytes (jsonSerialize (authHeaderJson "KID1"))),
         b64encode (strBytes (jsonSerialize (authClaimsJson "issuer-1" "com.example" 1234567))),
         sigSeg]) ∧
    jLookup (authClaimsFields "issuer-1" "com.example" 1234567) "iss" =
      some (.str "issuer-1") ∧
    jLookup (authClaimsFields "issuer-1" "com.example" 1234567) "aud" =
      some (.str "appstoreconnect-v1") ∧
    jLookup (authClaimsFields "issuer-1" "com.example" 1234567) "bid" =
      some (.str "com.example") ∧
    jLookup (authClaimsFields "issuer-1" "com.example" 1234567) "iat" =
      some (.num (1234567 / 1000)) ∧
    jLookup (authClaimsFields "issuer-1" "com.example" 1234567) "exp" =
      some (.num (1234567 / 1000 + 1800)) ∧
    jLookup (authHeaderFields "KID1") "kid" = some (.str "KID1") :=
  c7_issuer_claims (fun _ => some ("PRIVATE KEY", [])) (fun _ => some ())
    (fun _ _ => some [1, 2, 3]) 1234567 "KID1" "com.example" "issuer-1" "pem"
    (b64encode (strBytes (jsonSerialize (authHeaderJson "KID1"))) ++ "." ++
     b64encode (strBytes (jsonSerialize (authClaimsJson "issuer-1" "com.example" 1234567))) ++
     "." ++ b64encode [1, 2, 3]) rfl
